import Mathlib

/-!
Shallow embedding of `src/submit_to_google_play.py`, the Google Play
publishing script: the release-configuration builder (lines 189-208), the
resumable upload loop (lines 174-179), and the orchestration of the remote
edit transaction (open edit, bundle upload, track update, commit) in
`upload_to_google_play` (lines 116-264).

The remote service is modelled as an environment `Remote` of abstract
responses; the embedded `upload_to_google_play` records which remote
operations were attempted (the trace), the release configuration passed to
the track update (if reached), the progress values surfaced during upload,
and the overall outcome.  Python floats are modelled as rationals; the only
numeric operations in the source are comparison with 100 and division by
100, which the rational model reflects exactly.
-/

namespace SubmitToGooglePlay

/-- Lifecycle status strings the script puts into `release_config['status']`:
`draft`, `inProgress` or `completed`. -/
inductive ReleaseStatus
  | draft
  | inProgress
  | completed
  deriving DecidableEq, Repr

/-- One entry of `release_config['releaseNotes']`: a language tag and a text. -/
structure ReleaseNote where
  language : String
  text : String
  deriving DecidableEq, Repr

/-- The `release_config` dictionary built at lines 189-208: version codes,
release notes, a status, and the optional `userFraction` key (present only
when the staged-rollout branch sets it). -/
structure ReleaseConfig where
  versionCodes : List Nat
  releaseNotes : List ReleaseNote
  status : ReleaseStatus
  userFraction : Option ℚ
  deriving DecidableEq, Repr

/-- Lines 189-208 of the source: build the release configuration from the
track, rollout percentage, release notes, draft flag and the version code
returned by the upload.  `draft` wins; otherwise `production` with
rollout below 100 gives a staged rollout (`inProgress`, `userFraction =
rollout / 100`); every other case gives `completed` with no fraction. -/
def buildReleaseConfig (track : String) (rolloutPercentage : ℚ)
    (releaseNotes : String) (draft : Bool) (versionCode : Nat) : ReleaseConfig :=
  if draft then
    ⟨[versionCode], [⟨"en-US", releaseNotes⟩], ReleaseStatus.draft, none⟩
  else if track = "production" ∧ rolloutPercentage < 100 then
    ⟨[versionCode], [⟨"en-US", releaseNotes⟩], ReleaseStatus.inProgress,
      some (rolloutPercentage / 100)⟩
  else
    ⟨[versionCode], [⟨"en-US", releaseNotes⟩], ReleaseStatus.completed, none⟩

/-- The final response of the resumable upload: a dictionary carrying the
remote-assigned `versionCode` (line 183). -/
structure UploadResponse where
  versionCode : Nat
  deriving DecidableEq, Repr

/-- One acknowledgment from `next_chunk()` (line 176): an optional progress
status (its fraction in the model) and an optional final response. -/
structure ChunkAck where
  status : Option ℚ
  response : Option UploadResponse
  deriving DecidableEq, Repr

/-- Outcome of the resumable upload while-loop: a final response, an
exception raised by a chunk call, or exhaustion of the modelled
acknowledgment stream (the Python loop would keep calling `next_chunk`;
the claims only concern streams that do answer). -/
inductive UploadOutcome
  | done (resp : UploadResponse)
  | err (e : String)
  | hang
  deriving DecidableEq, Repr

/-- Lines 174-179 of the source: `response = None; while response is None:
status, response = next_chunk(); if status: print(progress)`.  The loop
consumes acknowledgments until one carries a final response, surfacing each
present progress status in order; a raising chunk call aborts it. -/
def uploadLoop : List (Except String ChunkAck) → UploadOutcome × List ℚ
  | [] => (UploadOutcome.hang, [])
  | Except.error e :: _ => (UploadOutcome.err e, [])
  | Except.ok ack :: rest =>
    match ack.response with
    | some resp => (UploadOutcome.done resp, ack.status.toList)
    | none =>
      let r := uploadLoop rest
      (r.1, ack.status.toList ++ r.2)

/-- The remote service environment: responses for credential/client setup
(lines 144-149, inside the try block), `edits().insert` (line 155), the
stream of `next_chunk` acknowledgments (line 176), `tracks().update`
(line 216) and `edits().commit` (line 226).  An `Except.error` models a
raised exception, caught by the handler at line 251. -/
structure Remote where
  setup : Except String Unit
  openEdit : Except String String
  chunks : List (Except String ChunkAck)
  updateTrack : Except String Unit
  commitEdit : Except String Unit

/-- The four remote operations of the publishing protocol, in the order the
source attempts them. -/
inductive RemoteOp
  | openEdit
  | bundleUpload
  | trackUpdate
  | commitEdit
  deriving DecidableEq, Repr

/-- What the invocation of `upload_to_google_play` comes to: returns `True`
(line 249), returns `False` (lines 141 and 264), or the upload loop never
receives a final response. -/
inductive Outcome
  | ok
  | failed
  | hangs
  deriving DecidableEq, Repr

/-- Observable record of one invocation: the outcome, the remote operations
attempted in order, the release configuration passed to the track update
call (when that call was attempted), the progress values surfaced by the
upload loop, and the version code read from the upload response. -/
structure RunResult where
  outcome : Outcome
  trace : List RemoteOp
  submitted : Option ReleaseConfig
  progress : List ℚ
  versionCode : Option Nat
  deriving DecidableEq, Repr

/-- Lines 116-264 of the source, `upload_to_google_play`: return `False` if
the service-account file is missing (lines 129-141); otherwise, inside the
try block, set up the client, open an edit, run the resumable upload loop,
build the release configuration, update the track, and commit, returning
`True`; any raised exception is caught and the function returns `False`. -/
def upload_to_google_play (serviceAccountFileExists : Bool) (remote : Remote)
    (track : String) (rolloutPercentage : ℚ) (releaseNotes : String)
    (draft : Bool) : RunResult :=
  if serviceAccountFileExists then
    match remote.setup with
    | Except.error _ => ⟨Outcome.failed, [], none, [], none⟩
    | Except.ok _ =>
      match remote.openEdit with
      | Except.error _ => ⟨Outcome.failed, [RemoteOp.openEdit], none, [], none⟩
      | Except.ok _ =>
        match uploadLoop remote.chunks with
        | (UploadOutcome.err _, ps) =>
          ⟨Outcome.failed, [RemoteOp.openEdit, RemoteOp.bundleUpload], none, ps, none⟩
        | (UploadOutcome.hang, ps) =>
          ⟨Outcome.hangs, [RemoteOp.openEdit, RemoteOp.bundleUpload], none, ps, none⟩
        | (UploadOutcome.done resp, ps) =>
          match remote.updateTrack with
          | Except.error _ =>
            ⟨Outcome.failed,
              [RemoteOp.openEdit, RemoteOp.bundleUpload, RemoteOp.trackUpdate],
              some (buildReleaseConfig track rolloutPercentage releaseNotes draft
                resp.versionCode),
              ps, some resp.versionCode⟩
          | Except.ok _ =>
            match remote.commitEdit with
            | Except.error _ =>
              ⟨Outcome.failed,
                [RemoteOp.openEdit, RemoteOp.bundleUpload, RemoteOp.trackUpdate,
                  RemoteOp.commitEdit],
                some (buildReleaseConfig track rolloutPercentage releaseNotes draft
                  resp.versionCode),
                ps, some resp.versionCode⟩
            | Except.ok _ =>
              ⟨Outcome.ok,
                [RemoteOp.openEdit, RemoteOp.bundleUpload, RemoteOp.trackUpdate,
                  RemoteOp.commitEdit],
                some (buildReleaseConfig track rolloutPercentage releaseNotes draft
                  resp.versionCode),
                ps, some resp.versionCode⟩
  else
    ⟨Outcome.failed, [], none, [], none⟩

/-- Acknowledgment stream in which the first chunks each carry a progress
status and no final response, and the last carries the final response and
no status. -/
def goodChunks (ps : List ℚ) (resp : UploadResponse) : List (Except String ChunkAck) :=
  ps.map (fun p => Except.ok ⟨some p, none⟩) ++ [Except.ok ⟨none, some resp⟩]

/-- A remote environment in which every operation succeeds and the upload
stream is `goodChunks ps resp`. -/
def okRemote (editId : String) (ps : List ℚ) (resp : UploadResponse) : Remote :=
  ⟨Except.ok (), Except.ok editId, goodChunks ps resp, Except.ok (), Except.ok ()⟩

theorem uploadLoop_goodChunks (ps : List ℚ) (resp : UploadResponse) :
    uploadLoop (goodChunks ps resp) = (UploadOutcome.done resp, ps) := by
  induction ps with
  | nil => simp [goodChunks, uploadLoop]
  | cons p rest ih => simp_all [goodChunks, uploadLoop, Option.toList]

theorem uploadLoop_statusOnly (l : List ℚ) :
    uploadLoop (l.map fun p => Except.ok ⟨some p, none⟩) = (UploadOutcome.hang, l) := by
  induction l with
  | nil => simp [uploadLoop]
  | cons p rest ih => simp_all [uploadLoop, Option.toList]

theorem run_okRemote (eid : String) (ps : List ℚ) (resp : UploadResponse)
    (track : String) (r : ℚ) (notes : String) (draft : Bool) :
    upload_to_google_play true (okRemote eid ps resp) track r notes draft
      = ⟨Outcome.ok,
          [RemoteOp.openEdit, RemoteOp.bundleUpload, RemoteOp.trackUpdate, RemoteOp.commitEdit],
          some (buildReleaseConfig track r notes draft resp.versionCode),
          ps, some resp.versionCode⟩ := by
  simp [upload_to_google_play, okRemote, uploadLoop_goodChunks]

theorem submitted_spec (fe : Bool) (remote : Remote) (track : String) (r : ℚ)
    (notes : String) (draft : Bool) (c : ReleaseConfig)
    (h : (upload_to_google_play fe remote track r notes draft).submitted = some c) :
    ∃ resp ps, uploadLoop remote.chunks = (UploadOutcome.done resp, ps) ∧
      c = buildReleaseConfig track r notes draft resp.versionCode := by
  cases fe with
  | false => simp [upload_to_google_play] at h
  | true =>
    rcases hs : remote.setup with e | u
    · simp [upload_to_google_play, hs] at h
    · rcases ho : remote.openEdit with e | eid
      · simp [upload_to_google_play, hs, ho] at h
      · rcases hu : uploadLoop remote.chunks with ⟨o, ps⟩
        cases o with
        | err e => simp [upload_to_google_play, hs, ho, hu] at h
        | hang => simp [upload_to_google_play, hs, ho, hu] at h
        | done resp =>
          rcases ht : remote.updateTrack with e | u2 <;>
            rcases hc : remote.commitEdit with e2 | u3 <;>
            simp [upload_to_google_play, hs, ho, hu, ht, hc] at h <;>
            exact ⟨resp, ps, rfl, h.symm⟩

theorem buildReleaseConfig_versionCodes (track : String) (r : ℚ) (notes : String)
    (draft : Bool) (vc : Nat) :
    (buildReleaseConfig track r notes draft vc).versionCodes = [vc] := by
  by_cases hd : draft <;> by_cases hc : (track = "production" ∧ r < 100) <;>
    simp [buildReleaseConfig, hd, hc]

theorem buildReleaseConfig_releaseNotes (track : String) (r : ℚ) (notes : String)
    (draft : Bool) (vc : Nat) :
    (buildReleaseConfig track r notes draft vc).releaseNotes = [⟨"en-US", notes⟩] := by
  by_cases hd : draft <;> by_cases hc : (track = "production" ∧ r < 100) <;>
    simp [buildReleaseConfig, hd, hc]

/-- C2: for every rollout percentage `r` in `[0,100]`, with `draft = false`
and track `production`, the built release descriptor has status
`inProgress` with rollout fraction `r / 100` if and only if `r < 100`, and
otherwise has status `completed` with no rollout fraction. -/
theorem build_production_rollout (r : ℚ) (h0 : 0 ≤ r) (h1 : r ≤ 100)
    (notes : String) (vc : Nat) :
    (((buildReleaseConfig "production" r notes false vc).status = ReleaseStatus.inProgress ∧
        (buildReleaseConfig "production" r notes false vc).userFraction = some (r / 100)) ↔
      r < 100) ∧
    (¬ r < 100 →
      (buildReleaseConfig "production" r notes false vc).status = ReleaseStatus.completed ∧
      (buildReleaseConfig "production" r notes false vc).userFraction = none) := by
  by_cases hr : r < 100 <;> simp [buildReleaseConfig, hr]

theorem build_production_rollout_witness :
    (0 : ℚ) ≤ 50 ∧ (50 : ℚ) ≤ 100 ∧
    ((((buildReleaseConfig "production" 50 "n" false 7).status = ReleaseStatus.inProgress ∧
        (buildReleaseConfig "production" 50 "n" false 7).userFraction = some (50 / 100)) ↔
      (50 : ℚ) < 100) ∧
    (¬ (50 : ℚ) < 100 →
      (buildReleaseConfig "production" 50 "n" false 7).status = ReleaseStatus.completed ∧
      (buildReleaseConfig "production" 50 "n" false 7).userFraction = none)) :=
  ⟨by norm_num, by norm_num, build_production_rollout 50 (by norm_num) (by norm_num) "n" 7⟩

/-- C5: for every track and every rollout percentage, if `draft = true` then
the built release descriptor has status `draft` and no rollout fraction, and
the rollout percentage argument is ignored (two invocations differing only
in the rollout percentage build the same descriptor). -/
theorem build_draft (track : String) (r rAlt : ℚ) (notes : String) (vc : Nat) :
    (buildReleaseConfig track r notes true vc).status = ReleaseStatus.draft ∧
    (buildReleaseConfig track r notes true vc).userFraction = none ∧
    buildReleaseConfig track r notes true vc = buildReleaseConfig track rAlt notes true vc := by
  simp [buildReleaseConfig]

/-- C6: for every track other than `production` and every rollout
percentage, with `draft = false`, the built release descriptor has status
`completed` and no rollout fraction. -/
theorem build_non_production (track : String) (h : track ≠ "production") (r : ℚ)
    (notes : String) (vc : Nat) :
    (buildReleaseConfig track r notes false vc).status = ReleaseStatus.completed ∧
    (buildReleaseConfig track r notes false vc).userFraction = none := by
  simp [buildReleaseConfig, h]

theorem build_non_production_witness :
    "beta" ≠ "production" ∧
    ((buildReleaseConfig "beta" 10 "n" false 7).status = ReleaseStatus.completed ∧
      (buildReleaseConfig "beta" 10 "n" false 7).userFraction = none) :=
  ⟨by decide, build_non_production "beta" (by decide) 10 "n" 7⟩

/-- C9: if the configured service-account credentials file does not exist,
`upload_to_google_play` returns `False` with no remote operation attempted:
no client is set up, no edit transaction is opened, nothing is submitted. -/
theorem missing_service_account_file (remote : Remote) (track : String) (r : ℚ)
    (notes : String) (draft : Bool) :
    upload_to_google_play false remote track r notes draft
      = ⟨Outcome.failed, [], none, [], none⟩ := rfl

/-- C1: the remote operations are attempted in the fixed order open-edit,
bundle-upload, track-update, commit (the trace is always an initial segment
of that order); after a failing step no later remote operation is attempted;
commit is attempted only when open-edit, the upload and the track update all
succeeded; and the invocation reports success only through a successful
commit call. -/
theorem upload_protocol_order (fe : Bool) (remote : Remote) (track : String)
    (r : ℚ) (notes : String) (draft : Bool) :
    (∃ t, (upload_to_google_play fe remote track r notes draft).trace ++ t =
      [RemoteOp.openEdit, RemoteOp.bundleUpload, RemoteOp.trackUpdate, RemoteOp.commitEdit]) ∧
    (∀ e, remote.openEdit = Except.error e →
      RemoteOp.bundleUpload ∉ (upload_to_google_play fe remote track r notes draft).trace ∧
      RemoteOp.trackUpdate ∉ (upload_to_google_play fe remote track r notes draft).trace ∧
      RemoteOp.commitEdit ∉ (upload_to_google_play fe remote track r notes draft).trace) ∧
    (∀ e ps, uploadLoop remote.chunks = (UploadOutcome.err e, ps) →
      RemoteOp.trackUpdate ∉ (upload_to_google_play fe remote track r notes draft).trace ∧
      RemoteOp.commitEdit ∉ (upload_to_google_play fe remote track r notes draft).trace) ∧
    (∀ e, remote.updateTrack = Except.error e →
      RemoteOp.commitEdit ∉ (upload_to_google_play fe remote track r notes draft).trace) ∧
    (RemoteOp.commitEdit ∈ (upload_to_google_play fe remote track r notes draft).trace →
      (∃ eid, remote.openEdit = Except.ok eid) ∧
      (∃ resp ps, uploadLoop remote.chunks = (UploadOutcome.done resp, ps)) ∧
      remote.updateTrack = Except.ok ()) ∧
    ((upload_to_google_play fe remote track r notes draft).outcome = Outcome.ok →
      remote.commitEdit = Except.ok ()) := by
  rcases hs : remote.setup with e0 | u0 <;>
    rcases ho : remote.openEdit with e1 | eid <;>
    rcases hu : uploadLoop remote.chunks with ⟨o, ps⟩ <;>
    cases o <;>
    rcases ht : remote.updateTrack with e3 | u2 <;>
    rcases hc : remote.commitEdit with e4 | u3 <;>
    cases fe <;>
    simp_all [upload_to_google_play]

theorem upload_protocol_order_witness :
    RemoteOp.commitEdit ∉
      (upload_to_google_play true
        ⟨Except.ok (), Except.ok "edit-1", goodChunks [] ⟨7⟩, Except.error "denied",
          Except.ok ()⟩
        "production" 100 "n" false).trace :=
  (upload_protocol_order true
    ⟨Except.ok (), Except.ok "edit-1", goodChunks [] ⟨7⟩, Except.error "denied", Except.ok ()⟩
    "production" 100 "n" false).2.2.2.1 "denied" rfl

/-- C4: on an acknowledgment stream whose first `N - 1` chunks each carry a
progress status and no final result and whose chunk `N` carries a final
result, the resumable upload loop returns exactly that final result and
surfaces the `N - 1` progress values in order; on every proper initial
segment of the stream (all of whose acknowledgments carry a non-null status
object) the loop has not yet produced a result, so it terminates exactly at
chunk `N`. -/
theorem resumable_upload_loop (ps : List ℚ) (resp : UploadResponse) :
    uploadLoop (goodChunks ps resp) = (UploadOutcome.done resp, ps) ∧
    (∀ k, k ≤ ps.length →
      uploadLoop ((goodChunks ps resp).take k) = (UploadOutcome.hang, ps.take k)) := by
  refine ⟨uploadLoop_goodChunks ps resp, fun k hk => ?_⟩
  have htake : (goodChunks ps resp).take k
      = (ps.take k).map fun p => Except.ok ⟨some p, none⟩ := by
    rw [goodChunks, List.take_append_of_le_length (by simpa using hk), List.map_take]
  rw [htake, uploadLoop_statusOnly]

theorem resumable_upload_loop_witness :
    uploadLoop (goodChunks [1 / 4, 1 / 2] ⟨42⟩) = (UploadOutcome.done ⟨42⟩, [1 / 4, 1 / 2]) ∧
    uploadLoop ((goodChunks [1 / 4, 1 / 2] ⟨42⟩).take 2)
      = (UploadOutcome.hang, [1 / 4, 1 / 2]) := by
  have h := resumable_upload_loop [1 / 4, 1 / 2] ⟨42⟩
  exact ⟨h.1, by simpa using h.2 2 (by norm_num)⟩

/-- C7 counterexample: with rollout percentage 0, draft false, on the
`production` track, the program submits a descriptor whose status is
`inProgress` and whose rollout fraction is `0`, which does not lie in the
open interval `(0, 1)`; so a submitted fraction need not lie in `(0, 1)`. -/
theorem rollout_fraction_interval_counterexample :
    (upload_to_google_play true (okRemote "edit-1" [] ⟨7⟩) "production" 0 "notes"
        false).submitted
      = some ⟨[7], [⟨"en-US", "notes"⟩], ReleaseStatus.inProgress, some 0⟩ ∧
    ¬ (0 < (0 : ℚ) ∧ (0 : ℚ) < 1) := by
  constructor
  · rw [run_okRemote]
    norm_num [buildReleaseConfig]
  · norm_num

/-- C7 amended: for every release descriptor the program constructs and
passes to the track update, the rollout fraction is present if and only if
the status is `inProgress`, and when present the fraction is strictly less
than `1`; a descriptor with status `draft` never carries a rollout
fraction.  (The source puts no lower bound on the fraction: rollout
percentage `0` yields fraction `0` and negative percentages yield negative
fractions.) -/
theorem submitted_fraction_invariant (fe : Bool) (remote : Remote) (track : String)
    (r : ℚ) (notes : String) (draft : Bool) (c : ReleaseConfig)
    (h : (upload_to_google_play fe remote track r notes draft).submitted = some c) :
    (c.userFraction ≠ none ↔ c.status = ReleaseStatus.inProgress) ∧
    (∀ f, c.userFraction = some f → f < 1) ∧
    (c.status = ReleaseStatus.draft → c.userFraction = none) := by
  obtain ⟨resp, ps, hu, rfl⟩ := submitted_spec fe remote track r notes draft c h
  by_cases hd : draft
  · simp [buildReleaseConfig, hd]
  · by_cases hc : (track = "production" ∧ r < 100)
    · refine ⟨by simp [buildReleaseConfig, hd, hc], ?_, by simp [buildReleaseConfig, hd, hc]⟩
      intro f hf
      simp only [buildReleaseConfig, if_neg hd, if_pos hc, Option.some.injEq] at hf
      rw [← hf]
      exact (div_lt_one (by norm_num)).mpr hc.2
    · simp [buildReleaseConfig, hd, hc]

theorem submitted_fraction_invariant_witness :
    (buildReleaseConfig "production" 10 "n" false 7).userFraction ≠ none ↔
      (buildReleaseConfig "production" 10 "n" false 7).status = ReleaseStatus.inProgress :=
  (submitted_fraction_invariant true (okRemote "edit-1" [] ⟨7⟩) "production" 10 "n" false
    (buildReleaseConfig "production" 10 "n" false 7) (by rw [run_okRemote])).1

/-- C8: every release descriptor the program passes to the track update
carries exactly one version code, namely the one returned by the completed
upload, and its release notes sit under the single fixed locale `en-US`,
whatever the track, draft flag and rollout percentage were. -/
theorem submitted_version_and_notes (fe : Bool) (remote : Remote) (track : String)
    (r : ℚ) (notes : String) (draft : Bool) (c : ReleaseConfig)
    (h : (upload_to_google_play fe remote track r notes draft).submitted = some c) :
    ∃ resp ps, uploadLoop remote.chunks = (UploadOutcome.done resp, ps) ∧
      c.versionCodes = [resp.versionCode] ∧
      c.releaseNotes = [⟨"en-US", notes⟩] := by
  obtain ⟨resp, ps, hu, rfl⟩ := submitted_spec fe remote track r notes draft c h
  exact ⟨resp, ps, hu, buildReleaseConfig_versionCodes track r notes draft resp.versionCode,
    buildReleaseConfig_releaseNotes track r notes draft resp.versionCode⟩

theorem submitted_version_and_notes_witness :
    (buildReleaseConfig "production" 100 "n" false 7).versionCodes = [7] ∧
    (buildReleaseConfig "production" 100 "n" false 7).releaseNotes = [⟨"en-US", "n"⟩] := by
  obtain ⟨resp, ps, hu, hv, hn⟩ := submitted_version_and_notes true (okRemote "edit-1" [] ⟨7⟩)
    "production" 100 "n" false (buildReleaseConfig "production" 100 "n" false 7)
    (by rw [run_okRemote])
  simp only [okRemote, uploadLoop_goodChunks, Prod.mk.injEq, UploadOutcome.done.injEq] at hu
  refine ⟨?_, hn⟩
  rw [hv, ← hu.1]

/-- C10: with draft false on the `production` track and an all-successful
remote, a rollout percentage strictly greater than `100` is silently
treated as a full rollout (the submitted descriptor is `completed` with no
fraction), a rollout percentage strictly less than `0` yields a submitted
descriptor with status `inProgress` and a negative fraction, and in both
cases no local error occurs: the invocation succeeds. -/
theorem out_of_range_rollout_descriptor (r : ℚ) (eid : String) (ps : List ℚ)
    (resp : UploadResponse) (notes : String) :
    (100 < r →
      (upload_to_google_play true (okRemote eid ps resp) "production" r notes false).submitted
        = some ⟨[resp.versionCode], [⟨"en-US", notes⟩], ReleaseStatus.completed, none⟩ ∧
      (upload_to_google_play true (okRemote eid ps resp) "production" r notes false).outcome
        = Outcome.ok) ∧
    (r < 0 →
      (upload_to_google_play true (okRemote eid ps resp) "production" r notes false).submitted
        = some ⟨[resp.versionCode], [⟨"en-US", notes⟩], ReleaseStatus.inProgress,
            some (r / 100)⟩ ∧
      r / 100 < 0 ∧
      (upload_to_google_play true (okRemote eid ps resp) "production" r notes false).outcome
        = Outcome.ok) := by
  rw [run_okRemote]
  constructor
  · intro h
    have hr : ¬ r < 100 := by linarith
    simp [buildReleaseConfig, hr]
  · intro h
    have hr : r < 100 := by linarith
    refine ⟨by simp [buildReleaseConfig, hr], div_neg_of_neg_of_pos h (by norm_num), rfl⟩

theorem out_of_range_rollout_descriptor_witness :
    ((upload_to_google_play true (okRemote "edit-1" [] ⟨7⟩) "production" 150 "n"
        false).submitted
      = some ⟨[7], [⟨"en-US", "n"⟩], ReleaseStatus.completed, none⟩) ∧
    ((upload_to_google_play true (okRemote "edit-1" [] ⟨7⟩) "production" (-50) "n"
        false).submitted
      = some ⟨[7], [⟨"en-US", "n"⟩], ReleaseStatus.inProgress, some (-50 / 100)⟩) :=
  ⟨((out_of_range_rollout_descriptor 150 "edit-1" [] ⟨7⟩ "n").1 (by norm_num)).1,
    ((out_of_range_rollout_descriptor (-50) "edit-1" [] ⟨7⟩ "n").2 (by norm_num)).1⟩

/-- C3 counterexample: with rollout percentage 150 (outside `[0, 100]`) and
an all-successful remote, the invocation does not fail with any local
error: every remote operation is attempted, starting with opening an edit
transaction, and the publish completes successfully. -/
theorem invalid_rollout_counterexample :
    (upload_to_google_play true (okRemote "edit-1" [] ⟨42⟩) "production" 150 "notes"
        false).outcome = Outcome.ok ∧
    (upload_to_google_play true (okRemote "edit-1" [] ⟨42⟩) "production" 150 "notes"
        false).trace
      = [RemoteOp.openEdit, RemoteOp.bundleUpload, RemoteOp.trackUpdate,
          RemoteOp.commitEdit] := by
  rw [run_okRemote]
  exact ⟨rfl, rfl⟩

/-- C3 amended: rollout percentages outside `[0, 100]` are not rejected
locally: `upload_to_google_play` raises no `InvalidArgumentError`, the
remote calls proceed (an edit transaction is opened), and with a successful
remote the publish completes. -/
theorem out_of_range_rollout_no_local_error (r : ℚ) (h : r < 0 ∨ 100 < r)
    (eid : String) (ps : List ℚ) (resp : UploadResponse) (track notes : String)
    (draft : Bool) :
    (upload_to_google_play true (okRemote eid ps resp) track r notes draft).outcome
      = Outcome.ok ∧
    RemoteOp.openEdit ∈
      (upload_to_google_play true (okRemote eid ps resp) track r notes draft).trace := by
  rw [run_okRemote]
  exact ⟨rfl, by simp⟩

theorem out_of_range_rollout_no_local_error_witness :
    ((150 : ℚ) < 0 ∨ (100 : ℚ) < 150) ∧
    (upload_to_google_play true (okRemote "edit-1" [] ⟨42⟩) "production" 150 "n"
        false).outcome = Outcome.ok :=
  ⟨Or.inr (by norm_num),
    (out_of_range_rollout_no_local_error 150 (Or.inr (by norm_num)) "edit-1" [] ⟨42⟩
      "production" "n" false).1⟩

end SubmitToGooglePlay
